import Mathlib

/-!
Verification of the market-regime classification engine of the
bullbear-dashboard repository
(src/backend/bullbear_backend/state_machine/engine.py and types.py).

Numbers are modelled over the rationals.  The only transcendental operation
the engine performs is math.log inside the slope estimator; every function
that (directly or indirectly) calls the slope estimator is therefore
parametrised by an arbitrary function log : Q -> Q standing for the natural
logarithm.  All structural facts proved here hold for every such function;
concrete witnesses instantiate it with an explicitly named stand-in.
All other arithmetic of the engine is exact field arithmetic, faithfully
mirrored over Q.
-/

set_option autoImplicit false

namespace BullBear

/-- TrendDirection from types.py (BULLISH = "趋势多", BEARISH = "趋势空"). -/
inductive TrendDirection where
  | BULLISH
  | BEARISH
deriving DecidableEq, Repr

/-- FundingBehavior from types.py (OFFENSIVE = "资金进攻", DEFENSIVE = "资金防守"). -/
inductive FundingBehavior where
  | OFFENSIVE
  | DEFENSIVE
deriving DecidableEq, Repr

/-- MarketState from types.py (the four-quadrant states). -/
inductive MarketState where
  | BULL_OFFENSIVE
  | BULL_DEFENSIVE
  | BEAR_OFFENSIVE
  | BEAR_DEFENSIVE
deriving DecidableEq, Repr

/-- The ordinary-least-squares slope of a series against the index sequence
0..n-1, as computed inline in StateMachineEngine._calculate_slope
(engine.py lines 292-306): means of x and y, then
numerator / denominator, returning 0 when the denominator is 0. -/
def regressionSlope (ys : List ℚ) : ℚ :=
  let n : ℚ := ys.length
  let xs : List ℚ := (List.range ys.length).map (fun i => (i : ℚ))
  let xMean := xs.sum / n
  let yMean := ys.sum / n
  let numerator := ((xs.zip ys).map (fun p => (p.1 - xMean) * (p.2 - yMean))).sum
  let denominator := (xs.map (fun x => (x - xMean) ^ 2)).sum
  if denominator = 0 then 0 else numerator / denominator

/-- StateMachineEngine._calculate_slope (engine.py lines 247-314).
Guard: series shorter than the window returns 0.0.  Then the last
`periods` values are taken, non-positive values are dropped; if fewer
than `periods` but at least 2 valid values remain the valid values are
used, below 2 the result is 0.0.  The remaining values are mapped
through log and an OLS line is fitted; the slope is scaled by 100.
(The Python try/except around math.log can only fire on non-positive
arguments, which the filter has already removed.  The drop below models
the slice values[-periods:] and agrees with it for every periods >= 1;
the engine only ever calls with periods between 7 and 10.) -/
def calculate_slope (log : ℚ → ℚ) (values : List ℚ) (periods : ℕ) : ℚ :=
  if values.length < periods then 0
  else
    let recent := values.drop (values.length - periods)
    let valid := recent.filter (fun v => 0 < v)
    if valid.length < periods ∧ valid.length < 2 then 0
    else
      let used := if valid.length < periods then valid else recent
      100 * regressionSlope (used.map log)

/-- The shared class-level history cache: the pair
(_historical_stablecoin_caps, _historical_total_caps) (engine.py lines 32-33). -/
abbrev Cache := List ℚ × List ℚ

/-- StateMachineEngine._update_market_cap_history (engine.py lines 227-245):
append the current stablecoin and total caps, then, when the stablecoin
list exceeds 30 entries, evict the oldest entry of both lists. -/
def update_market_cap_history (cache : Cache) (stablecoin_cap total_cap : ℚ) : Cache :=
  let s := cache.1 ++ [stablecoin_cap]
  let t := cache.2 ++ [total_cap]
  if 30 < s.length then (s.drop 1, t.drop 1) else (s, t)

/-- The effect of update_market_cap_history on a single list: append, then
evict the oldest entry when over capacity 30 (used to reason about the two
lists of the cache one at a time). -/
def pushCap (l : List ℚ) (v : ℚ) : List ℚ :=
  let appended := l ++ [v]
  if 30 < appended.length then appended.drop 1 else appended

/-- The result of _get_historical_market_cap_data (engine.py lines 209-225):
a dictionary with "stablecoin_market_cap" and "total_market_cap" lists of
(timestamp, value) pairs, or None when the CoinGecko call failed. -/
structure ExtMarketData where
  stable : List (ℤ × ℚ)
  total : List (ℤ × ℚ)
deriving DecidableEq, Repr

/-- The slope selection of _determine_funding (engine.py lines 414-435):
slopes from the external API history when a series has at least 7 points,
otherwise 0.0; then a joint fallback to the cache when both slopes are
still 0.0 and the cached stablecoin series has at least 7 points. -/
def funding_slopes (log : ℚ → ℚ) (ext : Option ExtMarketData) (cache : Cache) : ℚ × ℚ :=
  let fromExt : ℚ × ℚ :=
    match ext with
    | some d =>
        let sh := d.stable.map (fun p => p.2)
        let th := d.total.map (fun p => p.2)
        (if 7 ≤ sh.length then calculate_slope log sh (min 10 sh.length) else 0,
         if 7 ≤ th.length then calculate_slope log th (min 10 th.length) else 0)
    | none => (0, 0)
  if fromExt.1 = 0 ∧ fromExt.2 = 0 ∧ 7 ≤ cache.1.length then
    (calculate_slope log cache.1 (min 10 cache.1.length),
     calculate_slope log cache.2 (min 10 cache.2.length))
  else fromExt

/-- The metadata changes computed on the primary path of _determine_funding
(engine.py lines 461-474): change of the stablecoin cap and of the
stablecoin ratio against the oldest point of the external history if it
has a stablecoin series, else against the oldest cached point, else 0.0. -/
def funding_changes (stablecoin_market_cap total_market_cap ratioPct : ℚ)
    (ext : Option ExtMarketData) (cache : Cache) : ℚ × ℚ :=
  let fromCache : ℚ × ℚ :=
    match cache.1 with
    | [] => (0, 0)
    | c0 :: _ =>
        (stablecoin_market_cap - c0,
         ratioPct - (if cache.1 ≠ [] ∧ cache.2 ≠ [] ∧ 0 < cache.2.headD 0 then
            c0 / cache.2.headD 0 * 100 else ratioPct))
  match ext with
  | some d =>
      match d.stable with
      | [] => fromCache
      | (_, v0) :: _ =>
          let firstTotal := match d.total with
            | [] => total_market_cap
            | (_, w0) :: _ => w0
          let firstRatio := if 0 < firstTotal then v0 / firstTotal * 100 else ratioPct
          (stablecoin_market_cap - v0, ratioPct - firstRatio)
  | none => fromCache

/-- StateMachineEngine._determine_funding (engine.py lines 384-492).
Primary path if either selected slope is nonzero: the four sign
combinations (slope > 0 counts as up, otherwise down); fallback path:
classify by the ratio stablecoin/total*100 against the threshold 8.0,
returning the raw cap as the change and ratio - 8 as the ratio change. -/
def determine_funding (log : ℚ → ℚ) (stablecoin_market_cap total_market_cap : ℚ)
    (ext : Option ExtMarketData) (cache : Cache) : FundingBehavior × ℚ × ℚ :=
  let ratioPct := stablecoin_market_cap / total_market_cap * 100
  let slopes := funding_slopes log ext cache
  if slopes.1 ≠ 0 ∨ slopes.2 ≠ 0 then
    let sUp := 0 < slopes.1
    let tUp := 0 < slopes.2
    let funding :=
      if sUp ∧ tUp then FundingBehavior.OFFENSIVE
      else if ¬ sUp ∧ tUp then FundingBehavior.OFFENSIVE
      else if sUp ∧ ¬ tUp then FundingBehavior.DEFENSIVE
      else FundingBehavior.DEFENSIVE
    let changes := funding_changes stablecoin_market_cap total_market_cap ratioPct ext cache
    (funding, changes.1, changes.2)
  else
    (if ratioPct < 8 then FundingBehavior.OFFENSIVE else FundingBehavior.DEFENSIVE,
     stablecoin_market_cap, ratioPct - 8)

/-- The trend decision of _determine_trend_with_slope
(engine.py lines 360-382), as a function of price, MA200 and the MA200
slope (MA50 enters only log output there). -/
def trend_decision (btc_price ma200 ma200_slope : ℚ) : TrendDirection :=
  if ma200 < btc_price ∧ 0 ≤ ma200_slope then TrendDirection.BULLISH
  else if btc_price < ma200 ∧ ma200_slope < 0 then TrendDirection.BEARISH
  else if ma200 < btc_price then TrendDirection.BULLISH
  else TrendDirection.BEARISH

/-- StateMachineEngine._determine_trend_with_slope (engine.py lines 316-382):
slopes over the MA histories (0.0 below 10 points), then the decision
rules, returning both slopes alongside the direction. -/
def determine_trend_with_slope (log : ℚ → ℚ) (btc_price ma50 ma200 : ℚ)
    (ma50_history ma200_history : List ℚ) : TrendDirection × ℚ × ℚ :=
  let ma50_slope := if 10 ≤ ma50_history.length then calculate_slope log ma50_history 10 else 0
  let ma200_slope := if 10 ≤ ma200_history.length then calculate_slope log ma200_history 10 else 0
  (trend_decision btc_price ma200 ma200_slope, ma50_slope, ma200_slope)

/-- Python max(l + [x]) for a possibly empty list l. -/
def pyMax (l : List ℚ) (x : ℚ) : ℚ := l.foldl max x

/-- StateMachineEngine._calculate_risk_thermometer (engine.py lines 494-544).
Labels are the source's strings: "正常体温" = normal, "低/中烧" = mild
fever, "高烧威胁" = high fever, "生命体征极差" = critical. -/
def calculate_risk_thermometer (btc_price : ℚ) (prices : List ℚ) : ℚ × String :=
  let ath := if prices = [] then btc_price else pyMax prices btc_price
  if ath = 0 then (0, "正常体温")
  else
    let drawdown := (ath - btc_price) / ath * 100
    if drawdown ≤ 0 then (0, "正常体温")
    else if drawdown < 20 then (drawdown, "正常体温")
    else if drawdown < 35 then (drawdown, "低/中烧")
    else if drawdown < 60 then (drawdown, "高烧威胁")
    else (drawdown, "生命体征极差")

/-- The data the farside provider calls inside _calculate_etf_accelerator
can produce: the get_etf_data fields and the result of the
get_etf_net_flow_history call, which returns None (never raises) when the
flow table cannot be fetched or parsed. -/
structure EtfInput where
  net_flow : Option ℚ
  aum : Option ℚ
  history : Option (List ℚ)
deriving DecidableEq, Repr

/-- StateMachineEngine._calculate_etf_accelerator (engine.py lines 546-652).
The outer Option models the try/except: none means a provider call raised,
mapped to ("未知", none, none).  A history of None is falsy in Python and
takes the same single-day branch as a history shorter than 7 days, so it is
modelled by getD [].  Labels: "顺风" = tailwind, "逆风" = headwind,
"钝化" = neutral, "未知" = unknown. -/
def calculate_etf_accelerator (inp : Option EtfInput) : String × Option ℚ × Option ℚ :=
  match inp with
  | none => ("未知", none, none)
  | some d =>
    match d.net_flow with
    | none => ("未知", none, d.aum)
    | some nf =>
        let history := d.history.getD []
        if history.length < 7 then
          (if |nf| < 10000000 then ("钝化", some nf, d.aum)
           else if 0 < nf then ("顺风", some nf, d.aum)
           else ("逆风", some nf, d.aum))
        else
          let positive_days := (history.filter (fun day => 0 < day)).length
          let negative_days := (history.filter (fun day => day < 0)).length
          let total_days := history.length
          let avg_flow := history.sum / (total_days : ℚ)
          let recent_flows := history.drop (history.length - 7)
          if 14 ≤ positive_days ∧ (7 / 10 : ℚ) ≤ (positive_days : ℚ) / (total_days : ℚ) ∧
              ((∀ f ∈ recent_flows, 0 < f) ∨ 0 < recent_flows.sum) then
            ("顺风", some nf, d.aum)
          else if 14 ≤ negative_days ∧ (7 / 10 : ℚ) ≤ (negative_days : ℚ) / (total_days : ℚ) ∧
              ((∀ f ∈ recent_flows, f < 0) ∨ recent_flows.sum < 0) then
            ("逆风", some nf, d.aum)
          else
            let firstHalf := history.take (history.length / 2)
            let secondHalf := history.drop (history.length / 2)
            let firstAvg := firstHalf.sum / (firstHalf.length : ℚ)
            let secondAvg := secondHalf.sum / (secondHalf.length : ℚ)
            if 14 ≤ history.length ∧ firstAvg < 0 ∧ firstAvg < secondAvg ∧
                |secondAvg| < |firstAvg| * (1 / 2) then
              ("钝化", some nf, d.aum)
            else if |avg_flow| < 10000000 then ("钝化", some nf, d.aum)
            else if 0 < nf then ("顺风", some nf, d.aum)
            else ("逆风", some nf, d.aum)

/-- StateMachineEngine._map_to_state (engine.py lines 654-665). -/
def map_to_state (trend : TrendDirection) (funding : FundingBehavior) : MarketState :=
  match trend, funding with
  | TrendDirection.BULLISH, FundingBehavior.OFFENSIVE => MarketState.BULL_OFFENSIVE
  | TrendDirection.BULLISH, FundingBehavior.DEFENSIVE => MarketState.BULL_DEFENSIVE
  | TrendDirection.BEARISH, FundingBehavior.OFFENSIVE => MarketState.BEAR_OFFENSIVE
  | TrendDirection.BEARISH, FundingBehavior.DEFENSIVE => MarketState.BEAR_DEFENSIVE

/-- StateMachineEngine._get_risk_level (engine.py lines 667-675). -/
def get_risk_level (state : MarketState) : String :=
  match state with
  | MarketState.BULL_OFFENSIVE => "HIGH"
  | MarketState.BULL_DEFENSIVE => "MEDIUM"
  | MarketState.BEAR_OFFENSIVE => "MEDIUM"
  | MarketState.BEAR_DEFENSIVE => "LOW"

/-- StateMachineEngine._calculate_confidence (engine.py lines 677-707). -/
def calculate_confidence (btc_price ma50 ma200 ma50_slope ma200_slope
    stablecoin_ratio_change : ℚ) : ℚ :=
  let ma_arrangement_clear := if 0 < ma200 then |ma50 - ma200| / ma200 else 0
  let slope_strength := (|ma50_slope| + |ma200_slope|) / 2
  let slope_confidence := min 1 (slope_strength / (1 / 2))
  let trend_confidence := min 1 (ma_arrangement_clear * 5 + slope_confidence * (1 / 2))
  let funding_strength := |stablecoin_ratio_change| / 8
  let funding_confidence := min 1 funding_strength
  min 1 ((trend_confidence + funding_confidence) / 2)

/-- The slopes computed for frontend display in evaluate()
(engine.py lines 79-110): from the external API history when a series has
at least 10 points, each falling back independently to the cache when the
slope is still 0.0 and the cache has at least 7 points. -/
def top_level_slopes (log : ℚ → ℚ) (ext : Option ExtMarketData) (cache : Cache) : ℚ × ℚ :=
  let fromExt : ℚ × ℚ :=
    match ext with
    | some d =>
        let sh := d.stable.map (fun p => p.2)
        let th := d.total.map (fun p => p.2)
        (if 10 ≤ sh.length then calculate_slope log sh (min 10 sh.length) else 0,
         if 10 ≤ th.length then calculate_slope log th (min 10 th.length) else 0)
    | none => (0, 0)
  (if fromExt.1 = 0 ∧ 7 ≤ cache.1.length then
     calculate_slope log cache.1 (min 10 cache.1.length) else fromExt.1,
   if fromExt.2 = 0 ∧ 7 ≤ cache.2.length then
     calculate_slope log cache.2 (min 10 cache.2.length) else fromExt.2)

/-- The upstream data one evaluate() call consumes, with the five current
scalars already resolved (a failing scalar fetch propagates before any of
the modelled computation starts). -/
structure EvalInputs where
  btc_price : ℚ
  ma50 : ℚ
  ma200 : ℚ
  total_market_cap : ℚ
  stablecoin_market_cap : ℚ
  prices : List ℚ
  ma50_history : List ℚ
  ma200_history : List ℚ
  ext_market : Option ExtMarketData
  etf : Option EtfInput
deriving DecidableEq, Repr

/-- Every field evaluate() computes for the StateResult (engine.py lines
145-167), including the metadata entries. -/
structure StateFields where
  state : MarketState
  trend : TrendDirection
  funding : FundingBehavior
  riskLevel : String
  confidence : ℚ
  riskThermometer : String
  athDrawdown : ℚ
  etfAccelerator : String
  etfNetFlow : Option ℚ
  etfAum : Option ℚ
  ma50Slope : ℚ
  ma200Slope : ℚ
  stablecoinRatioPct : ℚ
  stablecoinChange : ℚ
  stablecoinRatioChange : ℚ
  stablecoinSlope : ℚ
  totalSlope : ℚ
deriving DecidableEq, Repr

/-- The computations of StateMachineEngine.evaluate (engine.py lines 47-167)
after the five scalars resolved: append the current caps to the shared
cache, then run every sub-classifier against the updated cache; returns
the computed result fields together with the cache left behind. -/
def evaluateFields (log : ℚ → ℚ) (inp : EvalInputs) (cache : Cache) : StateFields × Cache :=
  let cache' := update_market_cap_history cache inp.stablecoin_market_cap inp.total_market_cap
  let trendRes := determine_trend_with_slope log inp.btc_price inp.ma50 inp.ma200
    inp.ma50_history inp.ma200_history
  let fundingRes := determine_funding log inp.stablecoin_market_cap inp.total_market_cap
    inp.ext_market cache'
  let slopes := top_level_slopes log inp.ext_market cache'
  let state := map_to_state trendRes.1 fundingRes.1
  let thermo := calculate_risk_thermometer inp.btc_price inp.prices
  let etfRes := calculate_etf_accelerator inp.etf
  let conf := calculate_confidence inp.btc_price inp.ma50 inp.ma200
    trendRes.2.1 trendRes.2.2 fundingRes.2.2
  ({ state := state
     trend := trendRes.1
     funding := fundingRes.1
     riskLevel := get_risk_level state
     confidence := conf
     riskThermometer := thermo.2
     athDrawdown := thermo.1
     etfAccelerator := etfRes.1
     etfNetFlow := etfRes.2.1
     etfAum := etfRes.2.2
     ma50Slope := trendRes.2.1
     ma200Slope := trendRes.2.2
     stablecoinRatioPct := inp.stablecoin_market_cap / inp.total_market_cap * 100
     stablecoinChange := fundingRes.2.1
     stablecoinRatioChange := fundingRes.2.2
     stablecoinSlope := slopes.1
     totalSlope := slopes.2 }, cache')

/-- The fields of the ValidationLayer dataclass (types.py lines 33-48), in
declaration order; none of them has a default value, so the generated
init requires every one of them. -/
def validationLayerFields : List String :=
  ["risk_thermometer", "ath_drawdown", "ath_price", "etf_accelerator",
   "etf_net_flow", "etf_aum", "etf_flow_14d_sum", "etf_flow_pos_ratio",
   "etf_flow_recent_avg", "etf_flow_prev_avg", "etf_flow_trend", "etf_aum_trend"]

/-- The keyword arguments evaluate() passes when constructing the
ValidationLayer (engine.py lines 130-136). -/
def evaluateValidationKwargs : List String :=
  ["risk_thermometer", "ath_drawdown", "etf_accelerator", "etf_net_flow", "etf_aum"]

/-- A Python dataclass init call succeeds exactly when every field without
a default receives an argument; otherwise it raises TypeError. -/
def dataclassCallOk (required provided : List String) : Bool :=
  required.all (fun f => provided.contains f)

/-- StateMachineEngine.evaluate (engine.py lines 47-167) as observed by the
caller: the cache append always happens (line 67), and the call returns a
result only if the ValidationLayer construction at line 130 succeeds;
otherwise the TypeError propagates. -/
def evaluateResult (log : ℚ → ℚ) (inp : EvalInputs) (cache : Cache) :
    Except String StateFields × Cache :=
  let r := evaluateFields log inp cache
  if dataclassCallOk validationLayerFields evaluateValidationKwargs then
    (Except.ok r.1, r.2)
  else
    (Except.error "TypeError: ValidationLayer.__init__ missing required arguments", r.2)

/-- A concrete stand-in for the logarithm used by witnesses and
counterexamples.  Every general theorem below holds for an arbitrary
log function; the concrete facts proved with this stand-in depend on it
only through branch conditions that the real natural logarithm satisfies
as well (it is strictly monotone on the positive values involved). -/
def qid : ℚ → ℚ := fun q => q

/-- Witness data: an external market history of 10 strictly rising points
for both series. -/
def extUp : ExtMarketData :=
  { stable := (List.range 10).map (fun i => ((i : ℤ), (i : ℚ) + 1)),
    total := (List.range 10).map (fun i => ((i : ℤ), (i : ℚ) + 1)) }

/-- Witness data: a rising 10-point stablecoin history next to a 3-point
total history (too short for a slope, which therefore stays 0.0). -/
def extShortTotal : ExtMarketData :=
  { stable := (List.range 10).map (fun i => ((i : ℤ), (i : ℚ) + 1)),
    total := [(0, 5), (1, 6), (2, 7)] }

/-- Witness data: a 20-day ETF flow history with 16 positive days whose
last 7 days are all positive. -/
def etfHistory20 : List ℚ :=
  [1, 1, 1, 1, -1, 1, 1, 1, 1, -1, 1, -1, -1, 1, 1, 1, 1, 1, 1, 1]

/-- Witness data: an ETF snapshot carrying the 20-day history. -/
def etfInput20 : EtfInput :=
  { net_flow := some 50000000, aum := some 100, history := some etfHistory20 }

/-- Counterexample data: a full cache of 30 distinct values. -/
def cacheVals0 : List ℚ :=
  [1, 2, 3, 4, 5, 6, 7, 8, 9, 10, 11, 12, 13, 14, 15, 16, 17, 18, 19, 20,
   21, 22, 23, 24, 25, 26, 27, 28, 29, 30]

/-- Counterexample data: the full cache before the first call. -/
def cexCache : Cache := (cacheVals0, cacheVals0)

/-- The cache left behind by the first counterexample call: the oldest
entry evicted, the current value 31 appended. -/
def cacheValsA : List ℚ :=
  [2, 3, 4, 5, 6, 7, 8, 9, 10, 11, 12, 13, 14, 15, 16, 17, 18, 19, 20, 21,
   22, 23, 24, 25, 26, 27, 28, 29, 30, 31]

def cacheA : Cache := (cacheValsA, cacheValsA)

/-- The cache left behind by the second counterexample call. -/
def cacheValsB : List ℚ :=
  [3, 4, 5, 6, 7, 8, 9, 10, 11, 12, 13, 14, 15, 16, 17, 18, 19, 20, 21, 22,
   23, 24, 25, 26, 27, 28, 29, 30, 31, 31]

def cacheB : Cache := (cacheValsB, cacheValsB)

/-- Counterexample data: upstream inputs with no external cap history and
no ETF data, so the funding classifier falls back to the shared cache. -/
def cexInputs : EvalInputs :=
  { btc_price := 50000, ma50 := 48000, ma200 := 45000,
    total_market_cap := 31, stablecoin_market_cap := 31,
    prices := [], ma50_history := [], ma200_history := [],
    ext_market := none, etf := none }

/-- Witness data: upstream inputs whose external cap history is rich
enough (10 points per series, nonzero slopes) that no cache fallback is
ever consulted. -/
def wInputs : EvalInputs :=
  { btc_price := 50000, ma50 := 48000, ma200 := 45000,
    total_market_cap := 100, stablecoin_market_cap := 5,
    prices := [], ma50_history := [], ma200_history := [],
    ext_market := some extUp, etf := none }

/-- The trend rule of spec section 4.2, written as the spec words it:
first match wins among (1) price > MA200 and slope ≥ 0 → BULLISH,
(2) price < MA200 and slope < 0 → BEARISH, (3) price > MA200 → BULLISH,
(4) otherwise → BEARISH. -/
def specTrendRule (price ma200 ma200_slope : ℚ) : TrendDirection :=
  if price > ma200 ∧ ma200_slope ≥ 0 then TrendDirection.BULLISH
  else if price < ma200 ∧ ma200_slope < 0 then TrendDirection.BEARISH
  else if price > ma200 then TrendDirection.BULLISH
  else TrendDirection.BEARISH

/-- The risk-thermometer rule of spec section 4.4: ATH over history plus the
current price (current price alone without history), short-circuit at
ATH = 0, drawdown clamped to 0 when negative, then the half-open buckets
[0,20) normal, [20,35) mild fever, [35,60) high fever, [60,inf) critical. -/
def specRiskThermometer (price : ℚ) (prices : List ℚ) : ℚ × String :=
  let ath := if prices = [] then price else pyMax prices price
  if ath = 0 then (0, "正常体温")
  else
    let d := (ath - price) / ath * 100
    let clamped := if d < 0 then 0 else d
    if clamped < 20 then (clamped, "正常体温")
    else if clamped < 35 then (clamped, "低/中烧")
    else if clamped < 60 then (clamped, "高烧威胁")
    else (clamped, "生命体征极差")

/-- trend_clarity of spec section 4.7: |MA50-MA200|/MA200, 0 when MA200 ≤ 0. -/
def specTrendClarity (ma50 ma200 : ℚ) : ℚ :=
  if 0 < ma200 then |ma50 - ma200| / ma200 else 0

/-- slope_confidence of spec section 4.7: min(1, mean(|s50|,|s200|)/0.5). -/
def specSlopeConfidence (ma50_slope ma200_slope : ℚ) : ℚ :=
  min 1 (((|ma50_slope| + |ma200_slope|) / 2) / (1 / 2))

/-- trend_confidence of spec section 4.7. -/
def specTrendConfidence (ma50 ma200 ma50_slope ma200_slope : ℚ) : ℚ :=
  min 1 (specTrendClarity ma50 ma200 * 5 + specSlopeConfidence ma50_slope ma200_slope * (1 / 2))

/-- funding_confidence of spec section 4.7: min(1, |ratio change|/8.0). -/
def specFundingConfidence (stablecoin_ratio_change : ℚ) : ℚ :=
  min 1 (|stablecoin_ratio_change| / 8)

/-- Claim C4: for every combination of price, MA50, MA200 and the two
slopes, the trend classifier resolves with no error path by the first
matching rule in precedence order (1) price > MA200 and slope ≥ 0 →
BULLISH, (2) price < MA200 and slope < 0 → BEARISH, (3) price > MA200 →
BULLISH, (4) otherwise → BEARISH, and it returns both slopes unchanged
alongside the direction. -/
theorem trend_first_match_rules :
    (∀ price ma200 s200 : ℚ, trend_decision price ma200 s200 = specTrendRule price ma200 s200) ∧
    (∀ (log : ℚ → ℚ) (price ma50 ma200 : ℚ) (h50 h200 : List ℚ),
      determine_trend_with_slope log price ma50 ma200 h50 h200 =
        (specTrendRule price ma200 (if 10 ≤ h200.length then calculate_slope log h200 10 else 0),
         (if 10 ≤ h50.length then calculate_slope log h50 10 else 0),
         (if 10 ≤ h200.length then calculate_slope log h200 10 else 0))) := by
  constructor
  · intro price ma200 s200
    rfl
  · intro log price ma50 ma200 h50 h200
    rfl

/-- Claim C6: the risk thermometer computes the drawdown from the ATH over
the historical prices together with the current price (current price alone
on empty history), short-circuits at ATH = 0, clamps a negative drawdown
to 0, and buckets with half-open intervals; in particular a drawdown of
exactly 20 lands in "低/中烧" (mild fever), not "正常体温" (normal). -/
theorem risk_thermometer_correct :
    (∀ (price : ℚ) (prices : List ℚ),
      calculate_risk_thermometer price prices = specRiskThermometer price prices) ∧
    calculate_risk_thermometer 80000 [100000] = (20, "低/中烧") := by
  constructor
  · intro price prices
    unfold calculate_risk_thermometer specRiskThermometer
    set ath := if prices = [] then price else pyMax prices price with hath
    by_cases h0 : ath = 0
    · simp [h0]
    · simp only [h0, if_false]
      set d := (ath - price) / ath * 100 with hd
      by_cases hneg : d ≤ 0
      · rcases lt_or_eq_of_le hneg with hlt | heq
        · simp [hneg, hlt]
        · simp only [hneg, if_true]
          rw [heq]
          norm_num
      · have hpos : ¬ d < 0 := fun h => hneg h.le
        simp [hneg, hpos]
  · have hm : pyMax [(100000 : ℚ)] 80000 = 100000 := by
      norm_num [pyMax, max_def]
    norm_num [calculate_risk_thermometer, hm]

/-- Claim C8: the confidence score equals min(1, (trend_confidence +
funding_confidence)/2) with the section 4.7 formulas, always lies in
[0, 1], and (being total exact arithmetic with the MA200 ≤ 0 guard)
never fails. -/
theorem confidence_formula_and_bounds :
    ∀ price ma50 ma200 ma50_slope ma200_slope rc : ℚ,
      calculate_confidence price ma50 ma200 ma50_slope ma200_slope rc =
        min 1 ((specTrendConfidence ma50 ma200 ma50_slope ma200_slope +
          specFundingConfidence rc) / 2) ∧
      0 ≤ calculate_confidence price ma50 ma200 ma50_slope ma200_slope rc ∧
      calculate_confidence price ma50 ma200 ma50_slope ma200_slope rc ≤ 1 := by
  intro price ma50 ma200 ma50_slope ma200_slope rc
  have heq : calculate_confidence price ma50 ma200 ma50_slope ma200_slope rc =
      min 1 ((specTrendConfidence ma50 ma200 ma50_slope ma200_slope +
        specFundingConfidence rc) / 2) := rfl
  refine ⟨heq, ?_, ?_⟩
  · rw [heq]
    have hclar : 0 ≤ specTrendClarity ma50 ma200 := by
      unfold specTrendClarity
      by_cases h : 0 < ma200
      · simp only [h, if_true]
        exact div_nonneg (abs_nonneg _) h.le
      · simp [h]
    have hsc : 0 ≤ specSlopeConfidence ma50_slope ma200_slope := by
      unfold specSlopeConfidence
      refine le_min (by norm_num) ?_
      positivity
    have htc : 0 ≤ specTrendConfidence ma50 ma200 ma50_slope ma200_slope := by
      unfold specTrendConfidence
      refine le_min (by norm_num) ?_
      nlinarith
    have hfc : 0 ≤ specFundingConfidence rc := by
      unfold specFundingConfidence
      refine le_min (by norm_num) ?_
      positivity
    refine le_min (by norm_num) ?_
    linarith
  · rw [heq]
    exact min_le_left _ _

theorem update_eq_pushCap (s t : List ℚ) (a b : ℚ) (h : s.length = t.length) :
    update_market_cap_history (s, t) a b = (pushCap s a, pushCap t b) := by
  unfold update_market_cap_history pushCap
  simp only [List.length_append, List.length_singleton, h]
  by_cases hC : 30 < t.length + 1
  · simp only [hC, if_true]
  · simp only [hC, if_false]

theorem pushCap_length (l : List ℚ) (v : ℚ) :
    (pushCap l v).length = if 30 < l.length + 1 then l.length else l.length + 1 := by
  unfold pushCap
  simp only [List.length_append, List.length_singleton]
  by_cases hC : 30 < l.length + 1
  · simp only [hC, if_true, List.length_drop, List.length_append, List.length_singleton]
    omega
  · simp only [hC, if_false, List.length_append, List.length_singleton]

theorem pushCap_le (l : List ℚ) (v : ℚ) (h : l.length ≤ 30) :
    (pushCap l v).length ≤ 30 := by
  rw [pushCap_length]
  split <;> omega

theorem pushCap_eq_drop (l : List ℚ) (v : ℚ) (h : l.length ≤ 30) :
    pushCap l v = (l ++ [v]).drop ((l ++ [v]).length - 30) := by
  have hlen : (l ++ [v]).length = l.length + 1 := by
    simp
  unfold pushCap
  by_cases hc : 30 < (l ++ [v]).length
  · have h1 : (l ++ [v]).length - 30 = 1 := by omega
    simp only [hc, if_true, h1]
  · have h1 : (l ++ [v]).length - 30 = 0 := by omega
    simp only [hc, if_false, h1, List.drop_zero]

theorem foldl_pushCap (vs : List ℚ) : ∀ (l : List ℚ), l.length ≤ 30 →
    vs.foldl pushCap l = (l ++ vs).drop ((l ++ vs).length - 30) := by
  induction vs with
  | nil =>
      intro l h
      rw [List.foldl_nil, List.append_nil, Nat.sub_eq_zero_of_le h, List.drop_zero]
  | cons v vs ih =>
      intro l h
      rw [List.foldl_cons, ih _ (pushCap_le l v h), pushCap_eq_drop l v h]
      have hk : (l ++ [v]).length - 30 ≤ (l ++ [v]).length := Nat.sub_le _ _
      rw [← List.drop_append_of_le_length hk, List.drop_drop]
      have hassoc : l ++ [v] ++ vs = l ++ v :: vs := by
        rw [List.append_assoc, List.singleton_append]
      rw [hassoc]
      congr 1
      have h1 : (l ++ [v]).length = l.length + 1 := by simp
      have h2 : (l ++ v :: vs).length = l.length + (vs.length + 1) := by simp
      simp only [List.length_drop, h1, h2]
      omega

theorem foldl_update_pair (ps : List (ℚ × ℚ)) : ∀ (s t : List ℚ), s.length = t.length →
    ps.foldl (fun c p => update_market_cap_history c p.1 p.2) (s, t) =
      ((ps.map Prod.fst).foldl pushCap s, (ps.map Prod.snd).foldl pushCap t) := by
  induction ps with
  | nil =>
      intro s t _
      rfl
  | cons p ps ih =>
      intro s t h
      simp only [List.foldl_cons, List.map_cons]
      rw [update_eq_pushCap s t p.1 p.2 h]
      exact ih (pushCap s p.1) (pushCap t p.2) (by rw [pushCap_length, pushCap_length, h])

/-- Claim C9: iterating the cache update leaves each list with at most 30
entries, evicting oldest-first and preserving oldest-first order among the
survivors: feeding n stablecoin/total pairs into an empty cache leaves
exactly the final 30 entries of each series (all of them while n ≤ 30),
in their original order. -/
theorem cache_capacity_invariant (svals tvals : List ℚ)
    (h : svals.length = tvals.length) :
    ((svals.zip tvals).foldl
        (fun c p => update_market_cap_history c p.1 p.2) ([], [])).1 =
      svals.drop (svals.length - 30) ∧
    ((svals.zip tvals).foldl
        (fun c p => update_market_cap_history c p.1 p.2) ([], [])).2 =
      tvals.drop (tvals.length - 30) ∧
    ((svals.zip tvals).foldl
        (fun c p => update_market_cap_history c p.1 p.2) ([], [])).1.length ≤ 30 ∧
    ((svals.zip tvals).foldl
        (fun c p => update_market_cap_history c p.1 p.2) ([], [])).2.length ≤ 30 := by
  have hfst : (svals.zip tvals).map Prod.fst = svals :=
    List.map_fst_zip svals tvals (le_of_eq h)
  have hsnd : (svals.zip tvals).map Prod.snd = tvals :=
    List.map_snd_zip svals tvals (le_of_eq h.symm)
  have hpair := foldl_update_pair (svals.zip tvals) [] [] rfl
  rw [hfst, hsnd] at hpair
  have hs := foldl_pushCap svals [] (by simp)
  have ht := foldl_pushCap tvals [] (by simp)
  simp only [List.nil_append] at hs ht
  refine ⟨by rw [hpair, hs], by rw [hpair, ht], ?_, ?_⟩
  · rw [hpair, hs]
    simp only [List.length_drop]
    omega
  · rw [hpair, ht]
    simp only [List.length_drop]
    omega

/-- Witness for C9 at a concrete input: 35 pairs of values pushed through
the empty cache leave exactly the most recent 30 of each series in order. -/
theorem cache_capacity_invariant_witness :
    ((((List.range 35).map (fun i => (i : ℚ))).zip
          ((List.range 35).map (fun i => (i : ℚ) + 100))).foldl
        (fun c p => update_market_cap_history c p.1 p.2) ([], [])).1 =
      ((List.range 35).map (fun i => (i : ℚ))).drop
        (((List.range 35).map (fun i => (i : ℚ))).length - 30) :=
  (cache_capacity_invariant
    ((List.range 35).map (fun i => (i : ℚ)))
    ((List.range 35).map (fun i => (i : ℚ) + 100)) (by simp)).1

/-- Claim C7: with an ETF flow history of at least 7 days, the accelerator
returns "顺风" (tailwind) whenever there are at least 14 positive days,
the positive-day fraction is at least 0.70, and either all of the last 7
days are positive or their sum is positive. -/
theorem etf_tailwind_rule (d : EtfInput) (nf : ℚ) (history : List ℚ)
    (hnf : d.net_flow = some nf) (hh : d.history = some history)
    (hlen : 7 ≤ history.length)
    (hpos : 14 ≤ (history.filter (fun day => 0 < day)).length)
    (hfrac : (7 / 10 : ℚ) ≤
      ((history.filter (fun day => 0 < day)).length : ℚ) / (history.length : ℚ))
    (hrecent : (∀ f ∈ history.drop (history.length - 7), 0 < f) ∨
      0 < (history.drop (history.length - 7)).sum) :
    (calculate_etf_accelerator (some d)).1 = "顺风" := by
  have h7 : ¬ history.length < 7 := by omega
  simp only [calculate_etf_accelerator, hnf, hh, Option.getD_some]
  rw [if_neg h7, if_pos ⟨hpos, hfrac, hrecent⟩]

/-- Witness for C7: a 20-day history with 16 positive days, the last 7 all
positive, classified as "顺风". -/
theorem etf_tailwind_rule_witness :
    (calculate_etf_accelerator (some etfInput20)).1 = "顺风" := by
  refine etf_tailwind_rule etfInput20 50000000 etfHistory20 rfl rfl
    (by decide) (by decide) ?_ (Or.inl (by decide))
  have hfilter : ((etfHistory20.filter (fun day => 0 < day)).length : ℚ) = 16 := by
    norm_num [etfHistory20]
  have hlen : ((etfHistory20.length : ℚ)) = 20 := by
    norm_num [etfHistory20]
  rw [hfilter, hlen]
  norm_num

/-- Claim C5: the funding classifier follows the four-row sign table on the
primary path (strictly signed slopes) and the 8.0-percent ratio threshold
on the fallback path (both slopes exactly 0.0). -/
theorem funding_sign_table (log : ℚ → ℚ) (sCap tCap : ℚ)
    (ext : Option ExtMarketData) (cache : Cache) :
    (0 < (funding_slopes log ext cache).1 ∧ 0 < (funding_slopes log ext cache).2 →
      (determine_funding log sCap tCap ext cache).1 = FundingBehavior.OFFENSIVE) ∧
    ((funding_slopes log ext cache).1 < 0 ∧ 0 < (funding_slopes log ext cache).2 →
      (determine_funding log sCap tCap ext cache).1 = FundingBehavior.OFFENSIVE) ∧
    (0 < (funding_slopes log ext cache).1 ∧ (funding_slopes log ext cache).2 < 0 →
      (determine_funding log sCap tCap ext cache).1 = FundingBehavior.DEFENSIVE) ∧
    ((funding_slopes log ext cache).1 < 0 ∧ (funding_slopes log ext cache).2 < 0 →
      (determine_funding log sCap tCap ext cache).1 = FundingBehavior.DEFENSIVE) ∧
    ((funding_slopes log ext cache).1 = 0 ∧ (funding_slopes log ext cache).2 = 0 →
      (sCap / tCap * 100 < 8 →
        (determine_funding log sCap tCap ext cache).1 = FundingBehavior.OFFENSIVE) ∧
      (8 ≤ sCap / tCap * 100 →
        (determine_funding log sCap tCap ext cache).1 = FundingBehavior.DEFENSIVE)) := by
  refine ⟨?_, ?_, ?_, ?_, ?_⟩
  · rintro ⟨h1, h2⟩
    simp only [determine_funding]
    rw [if_pos (Or.inl (ne_of_gt h1))]
    simp [h1, h2]
  · rintro ⟨h1, h2⟩
    simp only [determine_funding]
    rw [if_pos (Or.inl (ne_of_lt h1))]
    simp [not_lt.2 (le_of_lt h1), h2]
  · rintro ⟨h1, h2⟩
    simp only [determine_funding]
    rw [if_pos (Or.inl (ne_of_gt h1))]
    simp [h1, not_lt.2 (le_of_lt h2)]
  · rintro ⟨h1, h2⟩
    simp only [determine_funding]
    rw [if_pos (Or.inl (ne_of_lt h1))]
    simp [not_lt.2 (le_of_lt h1), not_lt.2 (le_of_lt h2)]
  · rintro ⟨h1, h2⟩
    constructor
    · intro hr
      simp only [determine_funding]
      rw [if_neg (by simp [h1, h2])]
      simp [hr]
    · intro hr
      simp only [determine_funding]
      rw [if_neg (by simp [h1, h2])]
      simp [not_lt.2 hr]

/-- Witness for C5: a rising external history classifies as OFFENSIVE on
the primary path, and with no history at all a 5-percent ratio classifies
as OFFENSIVE while a 10-percent ratio classifies as DEFENSIVE on the
fallback path. -/
theorem funding_sign_table_witness :
    (determine_funding qid 5 100 (some extUp) ([], [])).1 = FundingBehavior.OFFENSIVE ∧
    (determine_funding qid 5 100 none ([], [])).1 = FundingBehavior.OFFENSIVE ∧
    (determine_funding qid 10 100 none ([], [])).1 = FundingBehavior.DEFENSIVE := by
  have hslopes : funding_slopes qid (some extUp) ([], []) = (100, 100) := by
    norm_num [funding_slopes, extUp, calculate_slope, regressionSlope, qid,
      show List.range 10 = [0, 1, 2, 3, 4, 5, 6, 7, 8, 9] from rfl,
      List.zip, List.zipWith, List.filter]
  have hnone : funding_slopes qid none ([], []) = (0, 0) := by
    norm_num [funding_slopes]
  refine ⟨(funding_sign_table qid 5 100 (some extUp) ([], [])).1 ?_,
    ((funding_sign_table qid 5 100 none ([], [])).2.2.2.2 ?_).1 ?_,
    ((funding_sign_table qid 10 100 none ([], [])).2.2.2.2 ?_).2 ?_⟩
  · rw [hslopes]
    norm_num
  · rw [hnone]
    exact ⟨rfl, rfl⟩
  · norm_num
  · rw [hnone]
    exact ⟨rfl, rfl⟩
  · norm_num

/-- Claim C10: on the primary path a total-market-cap slope of exactly 0.0
counts as downward, so the classification is DEFENSIVE regardless of the
stablecoin slope's sign. -/
theorem funding_zero_total_slope_defensive (log : ℚ → ℚ) (sCap tCap : ℚ)
    (ext : Option ExtMarketData) (cache : Cache)
    (h1 : (funding_slopes log ext cache).1 ≠ 0)
    (h2 : (funding_slopes log ext cache).2 = 0) :
    (determine_funding log sCap tCap ext cache).1 = FundingBehavior.DEFENSIVE := by
  simp only [determine_funding]
  rw [if_pos (Or.inl h1)]
  simp [h2]

/-- Witness for C10: a rising 10-point stablecoin history next to a 3-point
total history gives slopes (100, 0) and the classification DEFENSIVE. -/
theorem funding_zero_total_slope_defensive_witness :
    (determine_funding qid 5 100 (some extShortTotal) ([], [])).1 =
      FundingBehavior.DEFENSIVE := by
  have hslopes : funding_slopes qid (some extShortTotal) ([], []) = (100, 0) := by
    norm_num [funding_slopes, extShortTotal, calculate_slope, regressionSlope, qid,
      show List.range 10 = [0, 1, 2, 3, 4, 5, 6, 7, 8, 9] from rfl,
      List.zip, List.zipWith, List.filter]
  exact funding_zero_total_slope_defensive qid 5 100 (some extShortTotal) ([], [])
    (by rw [hslopes]; norm_num) (by rw [hslopes])

theorem regressionSlope_length_one (ys : List ℚ) (h : ys.length = 1) :
    regressionSlope ys = 0 := by
  rcases ys with _ | ⟨y, _ | ⟨z, t⟩⟩
  · simp at h
  · norm_num [regressionSlope, show List.range 1 = [0] from rfl, List.zip, List.zipWith]
  · simp at h

/-- Counterexample for C3: a 3-element series of positive, non-constant
values with window size 10 makes _calculate_slope return 0.0 at its
length guard although at least 2 valid values exist and their OLS
log-slope is nonzero, contradicting the claim that 0.0 is returned only
when fewer than 2 valid values remain. -/
theorem slope_short_series_cex :
    calculate_slope qid [1, 2, 4] 10 = 0 ∧
    100 * regressionSlope ((([1, 2, 4] : List ℚ).filter (fun v => 0 < v)).map qid) ≠ 0 := by
  constructor
  · norm_num [calculate_slope]
  · norm_num [regressionSlope, qid, List.filter,
      show List.range 3 = [0, 1, 2] from rfl, List.zip, List.zipWith]

/-- Claim C3 as amended: only when the raw series has at least `periods`
values does _calculate_slope take the last `periods` values, drop the
non-positive ones and fit the OLS log-slope (times 100) over the
remaining values provided at least 2 remain, returning 0.0 below 2 valid
values; a series shorter than `periods` yields 0.0 regardless of its
content. -/
theorem slope_characterization (log : ℚ → ℚ) (values : List ℚ) (periods : ℕ)
    (hp : 1 ≤ periods) :
    (values.length < periods → calculate_slope log values periods = 0) ∧
    (periods ≤ values.length →
      ((values.drop (values.length - periods)).filter (fun v => 0 < v)).length < 2 →
      calculate_slope log values periods = 0) ∧
    (periods ≤ values.length →
      2 ≤ ((values.drop (values.length - periods)).filter (fun v => 0 < v)).length →
      calculate_slope log values periods =
        100 * regressionSlope
          (((values.drop (values.length - periods)).filter (fun v => 0 < v)).map log)) := by
  refine ⟨?_, ?_, ?_⟩
  · intro hshort
    unfold calculate_slope
    rw [if_pos hshort]
  · intro hlen hvalid
    have hnl : ¬ values.length < periods := not_lt.2 hlen
    have hrec : (values.drop (values.length - periods)).length = periods := by
      rw [List.length_drop]
      omega
    unfold calculate_slope
    rw [if_neg hnl]
    by_cases hvp : ((values.drop (values.length - periods)).filter (fun v => 0 < v)).length
        < periods
    · rw [if_pos ⟨hvp, hvalid⟩]
    · rw [if_neg (fun hand => hvp hand.1), if_neg hvp]
      have hple : periods ≤
          ((values.drop (values.length - periods)).filter (fun v => 0 < v)).length :=
        not_lt.1 hvp
      have hone : (values.drop (values.length - periods)).length = 1 := by omega
      show 100 * regressionSlope ((values.drop (values.length - periods)).map log) = 0
      rw [regressionSlope_length_one _ (by rw [List.length_map, hone]), mul_zero]
  · intro hlen hvalid
    have hnl : ¬ values.length < periods := not_lt.2 hlen
    have hrec : (values.drop (values.length - periods)).length = periods := by
      rw [List.length_drop]
      omega
    unfold calculate_slope
    rw [if_neg hnl, if_neg (fun hand => absurd hvalid (not_le.2 hand.2))]
    by_cases hvp : ((values.drop (values.length - periods)).filter (fun v => 0 < v)).length
        < periods
    · rw [if_pos hvp]
    · rw [if_neg hvp]
      show 100 * regressionSlope ((values.drop (values.length - periods)).map log) =
        100 * regressionSlope
          (((values.drop (values.length - periods)).filter (fun v => 0 < v)).map log)
      have hfle : ((values.drop (values.length - periods)).filter (fun v => 0 < v)).length ≤
          (values.drop (values.length - periods)).length := List.length_filter_le _ _
      have heq : ((values.drop (values.length - periods)).filter (fun v => 0 < v)).length =
          (values.drop (values.length - periods)).length := by omega
      rw [List.filter_length_eq_length] at heq
      rw [List.filter_eq_self.2 heq]

/-- Witness for the amended C3: a 4-element series with window 3 has its
last 3 values, all positive, fitted by OLS on the log scale. -/
theorem slope_characterization_witness :
    calculate_slope qid [1, 2, 4, 8] 3 =
      100 * regressionSlope (((([1, 2, 4, 8] : List ℚ).drop
        (([1, 2, 4, 8] : List ℚ).length - 3)).filter (fun v => 0 < v)).map qid) :=
  (slope_characterization qid [1, 2, 4, 8] 3 (by norm_num)).2.2 (by decide) (by decide)

/-- Claim C1 (refuted by the code as written): even when all five current
scalars resolve, evaluate() never returns: the ValidationLayer dataclass
of types.py requires 12 field arguments and engine.py line 130 supplies
only 5, so the construction raises TypeError on every call, regardless of
how much or how little history is available.  (The history handling
itself is total: every sub-classifier modelled above is a total function,
so short histories are indeed never the cause of a failure.) -/
theorem evaluate_always_raises (log : ℚ → ℚ) (inp : EvalInputs) (cache : Cache) :
    (evaluateResult log inp cache).1 =
      Except.error "TypeError: ValidationLayer.__init__ missing required arguments" := by
  have h : dataclassCallOk validationLayerFields evaluateValidationKwargs = false := by
    decide
  simp [evaluateResult, h]

theorem funding_slopes_cache_irrelevant (log : ℚ → ℚ) (d : ExtMarketData)
    (c c' : Cache)
    (hs : calculate_slope log (d.stable.map (fun p => p.2))
      (min 10 (d.stable.map (fun p => p.2)).length) ≠ 0)
    (h7s : 7 ≤ (d.stable.map (fun p => p.2)).length) :
    funding_slopes log (some d) c = funding_slopes log (some d) c' := by
  have hfe1 : (if 7 ≤ (d.stable.map (fun p => p.2)).length then
      calculate_slope log (d.stable.map (fun p => p.2))
        (min 10 (d.stable.map (fun p => p.2)).length) else 0) ≠ 0 := by
    rw [if_pos h7s]
    exact hs
  have hcond : ∀ cc : Cache, ¬ ((if 7 ≤ (d.stable.map (fun p => p.2)).length then
      calculate_slope log (d.stable.map (fun p => p.2))
        (min 10 (d.stable.map (fun p => p.2)).length) else 0) = 0 ∧
      (if 7 ≤ (d.total.map (fun p => p.2)).length then
      calculate_slope log (d.total.map (fun p => p.2))
        (min 10 (d.total.map (fun p => p.2)).length) else 0) = 0 ∧
      7 ≤ cc.1.length) := fun cc hand => hfe1 hand.1
  simp only [funding_slopes]
  rw [if_neg (hcond c), if_neg (hcond c')]

theorem funding_changes_cache_irrelevant (s t r : ℚ) (d : ExtMarketData)
    (c c' : Cache) (hne : d.stable ≠ []) :
    funding_changes s t r (some d) c = funding_changes s t r (some d) c' := by
  rcases hd : d.stable with _ | ⟨⟨t0, v0⟩, rest⟩
  · exact absurd hd hne
  · simp only [funding_changes, hd]

theorem determine_funding_cache_irrelevant (log : ℚ → ℚ) (sCap tCap : ℚ)
    (d : ExtMarketData) (c c' : Cache)
    (hs : calculate_slope log (d.stable.map (fun p => p.2))
      (min 10 (d.stable.map (fun p => p.2)).length) ≠ 0)
    (h7s : 7 ≤ (d.stable.map (fun p => p.2)).length) :
    determine_funding log sCap tCap (some d) c =
      determine_funding log sCap tCap (some d) c' := by
  have hne : d.stable ≠ [] := by
    intro hnil
    rw [hnil] at h7s
    simp at h7s
  simp only [determine_funding]
  rw [funding_slopes_cache_irrelevant log d c c' hs h7s,
    funding_changes_cache_irrelevant sCap tCap (sCap / tCap * 100) d c c' hne]

theorem top_level_slopes_cache_irrelevant (log : ℚ → ℚ) (d : ExtMarketData)
    (c c' : Cache)
    (hs : calculate_slope log (d.stable.map (fun p => p.2))
      (min 10 (d.stable.map (fun p => p.2)).length) ≠ 0)
    (ht : calculate_slope log (d.total.map (fun p => p.2))
      (min 10 (d.total.map (fun p => p.2)).length) ≠ 0)
    (h10s : 10 ≤ (d.stable.map (fun p => p.2)).length)
    (h10t : 10 ≤ (d.total.map (fun p => p.2)).length) :
    top_level_slopes log (some d) c = top_level_slopes log (some d) c' := by
  have hfe1 : (if 10 ≤ (d.stable.map (fun p => p.2)).length then
      calculate_slope log (d.stable.map (fun p => p.2))
        (min 10 (d.stable.map (fun p => p.2)).length) else 0) ≠ 0 := by
    rw [if_pos h10s]
    exact hs
  have hfe2 : (if 10 ≤ (d.total.map (fun p => p.2)).length then
      calculate_slope log (d.total.map (fun p => p.2))
        (min 10 (d.total.map (fun p => p.2)).length) else 0) ≠ 0 := by
    rw [if_pos h10t]
    exact ht
  have hcond1 : ∀ cc : Cache, ¬ ((if 10 ≤ (d.stable.map (fun p => p.2)).length then
      calculate_slope log (d.stable.map (fun p => p.2))
        (min 10 (d.stable.map (fun p => p.2)).length) else 0) = 0 ∧
      7 ≤ cc.1.length) := fun cc hand => hfe1 hand.1
  have hcond2 : ∀ cc : Cache, ¬ ((if 10 ≤ (d.total.map (fun p => p.2)).length then
      calculate_slope log (d.total.map (fun p => p.2))
        (min 10 (d.total.map (fun p => p.2)).length) else 0) = 0 ∧
      7 ≤ cc.2.length) := fun cc hand => hfe2 hand.1
  simp only [top_level_slopes]
  rw [if_neg (hcond1 c), if_neg (hcond1 c'), if_neg (hcond2 c), if_neg (hcond2 c')]

/-- Claim C2 as amended: two successive evaluations with identical
upstream data compute identical result fields whenever the external cap
history is rich enough that no cache fallback path is consulted (at least
10 points in each series and nonzero slopes over them); when a cache
fallback is consulted, cache-dependent fields may differ between the two
calls because each call appends to the shared cache first (see the
counterexample). -/
theorem evaluate_idempotent_without_cache_fallback (log : ℚ → ℚ)
    (inp : EvalInputs) (cache : Cache) (d : ExtMarketData)
    (hext : inp.ext_market = some d)
    (hs : calculate_slope log (d.stable.map (fun p => p.2))
      (min 10 (d.stable.map (fun p => p.2)).length) ≠ 0)
    (ht : calculate_slope log (d.total.map (fun p => p.2))
      (min 10 (d.total.map (fun p => p.2)).length) ≠ 0)
    (h10s : 10 ≤ (d.stable.map (fun p => p.2)).length)
    (h10t : 10 ≤ (d.total.map (fun p => p.2)).length) :
    (evaluateFields log inp cache).1 =
      (evaluateFields log inp ((evaluateFields log inp cache).2)).1 := by
  have h7s : 7 ≤ (d.stable.map (fun p => p.2)).length := by omega
  have key : ∀ c c' : Cache, (evaluateFields log inp c).1 = (evaluateFields log inp c').1 := by
    intro c c'
    simp only [evaluateFields, hext]
    rw [determine_funding_cache_irrelevant log inp.stablecoin_market_cap
        inp.total_market_cap d
        (update_market_cap_history c inp.stablecoin_market_cap inp.total_market_cap)
        (update_market_cap_history c' inp.stablecoin_market_cap inp.total_market_cap)
        hs h7s,
      top_level_slopes_cache_irrelevant log d
        (update_market_cap_history c inp.stablecoin_market_cap inp.total_market_cap)
        (update_market_cap_history c' inp.stablecoin_market_cap inp.total_market_cap)
        hs ht h10s h10t]
  exact key cache ((evaluateFields log inp cache).2)

theorem calc_slope_extUp :
    calculate_slope qid (extUp.stable.map (fun p => p.2))
      (min 10 (extUp.stable.map (fun p => p.2)).length) = 100 := by
  norm_num [extUp, calculate_slope, regressionSlope, qid,
    show List.range 10 = [0, 1, 2, 3, 4, 5, 6, 7, 8, 9] from rfl,
    List.zip, List.zipWith, List.filter]

/-- Witness for the amended C2: with a 10-point rising external history
the two successive calls compute identical result fields. -/
theorem evaluate_idempotent_witness :
    (evaluateFields qid wInputs ([], [])).1 =
      (evaluateFields qid wInputs ((evaluateFields qid wInputs ([], [])).2)).1 := by
  have htot : extUp.total = extUp.stable := rfl
  refine evaluate_idempotent_without_cache_fallback qid wInputs ([], []) extUp rfl
    ?_ ?_ ?_ ?_
  · rw [calc_slope_extUp]
    norm_num
  · rw [htot, calc_slope_extUp]
    norm_num
  · decide
  · decide

theorem calc_slope_cacheValsA : calculate_slope qid cacheValsA 10 = 100 := by
  have hdrop : cacheValsA.drop 20 =
      [22, 23, 24, 25, 26, 27, 28, 29, 30, 31] := rfl
  norm_num [calculate_slope, hdrop, regressionSlope, qid,
    show cacheValsA.length = 30 from rfl,
    show List.range 10 = [0, 1, 2, 3, 4, 5, 6, 7, 8, 9] from rfl,
    List.zip, List.zipWith, List.filter]

theorem calc_slope_cacheValsB : calculate_slope qid cacheValsB 10 = 1040 / 11 := by
  have hdrop : cacheValsB.drop 20 =
      [23, 24, 25, 26, 27, 28, 29, 30, 31, 31] := rfl
  norm_num [calculate_slope, hdrop, regressionSlope, qid,
    show cacheValsB.length = 30 from rfl,
    show List.range 10 = [0, 1, 2, 3, 4, 5, 6, 7, 8, 9] from rfl,
    List.zip, List.zipWith, List.filter]

theorem funding_after_first_call :
    (determine_funding qid 31 31 none cacheA).2.1 = 29 := by
  have hfs : funding_slopes qid none cacheA = (100, 100) := by
    simp only [funding_slopes]
    rw [if_pos ⟨trivial, trivial, by decide⟩]
    have h1 : cacheA.1 = cacheValsA := rfl
    have h2 : cacheA.2 = cacheValsA := rfl
    have hm : min 10 cacheValsA.length = 10 := rfl
    rw [h1, h2, hm, calc_slope_cacheValsA]
  simp only [determine_funding, hfs]
  rw [if_pos (Or.inl (by norm_num))]
  simp only [funding_changes, cacheA, cacheValsA]
  norm_num

theorem funding_after_second_call :
    (determine_funding qid 31 31 none cacheB).2.1 = 28 := by
  have hfs : funding_slopes qid none cacheB = (1040 / 11, 1040 / 11) := by
    simp only [funding_slopes]
    rw [if_pos ⟨trivial, trivial, by decide⟩]
    have h1 : cacheB.1 = cacheValsB := rfl
    have h2 : cacheB.2 = cacheValsB := rfl
    have hm : min 10 cacheValsB.length = 10 := rfl
    rw [h1, h2, hm, calc_slope_cacheValsB]
  simp only [determine_funding, hfs]
  rw [if_pos (Or.inl (by norm_num))]
  simp only [funding_changes, cacheB, cacheValsB]
  norm_num

/-- Counterexample for C2: with identical upstream data (no external cap
history, no ETF data, the same five scalars) and an already-populated
cache of 30 distinct entries, the first call computes
stablecoin_change = 29 and the second call computes 28: each call appends
to and trims the shared cache, shifting the oldest cached entry that
stablecoin_change is measured against.  The branch conditions involved
depend on the log stand-in only through the slope of a strictly rising
window being nonzero, which holds for the real logarithm as well. -/
theorem evaluate_not_idempotent_cex :
    ((evaluateFields qid cexInputs cexCache).1).stablecoinChange ≠
      ((evaluateFields qid cexInputs
        ((evaluateFields qid cexInputs cexCache).2)).1).stablecoinChange := by
  have e1 : ((evaluateFields qid cexInputs cexCache).1).stablecoinChange =
      (determine_funding qid 31 31 none cacheA).2.1 := rfl
  have e2 : ((evaluateFields qid cexInputs
      ((evaluateFields qid cexInputs cexCache).2)).1).stablecoinChange =
      (determine_funding qid 31 31 none cacheB).2.1 := rfl
  rw [e1, e2, funding_after_first_call, funding_after_second_call]
  norm_num

end BullBear
